import Mathlib

/-!
Shallow embedding of the `subprocess` library core
(`src/include/subprocess/subprocess.hpp`, the revision the claims cite).

Modelling conventions:
* OS file descriptors are `Int` (the C++ `int fd_`, default `-1`).
* The OS is an explicit state: the multiset of open fd numbers, as a list.
  `::close(fd)` removes the number; closing an absent fd is the EBADF no-op.
* The C++ `descriptor* linked_fd_` pointer is modelled by the pointee's fd
  number at link time (`Option Int`); `none` is the null pointer.  The claims
  only inspect whether and to what a descriptor is linked, never pointer
  identity itself.
* C++ exceptions are `Except subprocess_error`; where a claim needs the
  mutations performed before a throw, the function returns the error together
  with the final state instead (`Option subprocess_error × state`).
* Syscall outcomes the kernel chooses (fork pids, wait statuses, pipe data)
  are supplied by an explicit environment `Env`.
-/

namespace Subprocess

/-- The three concrete exception kinds of `namespace exceptions`:
`os_error`, `usage_error`, and `command_error` (which carries `return_code_`). -/
inductive subprocess_error where
  | os_error (msg : String)
  | usage_error (msg : String)
  | command_error (msg : String) (return_code : Nat)
deriving DecidableEq, Repr

/-- Decidable equality for `Except`, so that concrete evaluations of the
embedded functions can be checked by `decide`. -/
instance {ε α : Type _} [DecidableEq ε] [DecidableEq α] :
    DecidableEq (Except ε α) := fun x y =>
  match x, y with
  | .error a, .error b => decidable_of_iff (a = b) (by simp)
  | .ok a, .ok b => decidable_of_iff (a = b) (by simp)
  | .error _, .ok _ => .isFalse (by simp)
  | .ok _, .error _ => .isFalse (by simp)

/-- OS state: the open file descriptor table (numbers only). -/
structure OS where
  openFds : List Int
deriving DecidableEq, Repr

/-- The fd table of a fresh process: stdin 0, stdout 1, stderr 2. -/
def OS.init : OS := ⟨[0, 1, 2]⟩

/-- Observable effect of `::close(fd)`: the number leaves the open-fd table
(closing an fd that is not open is an ignored `EBADF`). -/
def OS.closeFd (os : OS) (fd : Int) : OS :=
  ⟨os.openFds.filter (fun x => x ≠ fd)⟩

/-- Allocation policy of `::open`/`::pipe`: the lowest unused non-negative
fd number. -/
def OS.alloc (os : OS) : Int :=
  Int.ofNat (((List.range (os.openFds.length + 1)).filter
    (fun n => !(os.openFds.contains (Int.ofNat n)))).headD 0)

/-- The kernel hands out a new open fd. -/
def OS.addFd (os : OS) (fd : Int) : OS := ⟨fd :: os.openFds⟩

/-- Embeds `enum class standard_filenos`: `standard_in = 0`, `standard_out = 1`,
`standard_error = 2`, `max_standard_fd` the next enumerator, i.e. `3`. -/
def standard_filenos.max_standard_fd : Int := 3

/-- Embeds `class descriptor`: fd number, optional backing file path
(`std::optional<std::filesystem::path> file_path_`), and the
`linked_fd_` pointer (modelled by the counterpart's fd number). -/
structure descriptor where
  fd : Int := -1
  file_path : Option String := none
  linked_fd : Option Int := none
deriving DecidableEq, Repr

/-- Embeds `descriptor::linked()`. -/
def descriptor.linked (d : descriptor) : Bool := d.linked_fd.isSome

/-- The plain `descriptor(int fd)` constructor: wraps an existing handle,
records no path, links nothing. -/
def descriptor.wrap (fd : Int) : descriptor := { fd := fd }

/-- Embeds `subprocess::in()`: wraps `standard_filenos::standard_in` (fd 0). -/
def inFd : descriptor := descriptor.wrap 0

/-- Embeds `subprocess::out()`: wraps `standard_filenos::standard_out` (fd 1). -/
def outFd : descriptor := descriptor.wrap 1

/-- Embeds `subprocess::err()`: wraps `standard_filenos::standard_error` (fd 2). -/
def errFd : descriptor := descriptor.wrap 2

/-- Embeds `descriptor::close()`:
`if (fd() > max_standard_fd) { ::close(fd()); file_path_.reset(); }`.
Note the strict comparison against `3`: fds 0..3 are left untouched, and
the stored fd number itself is never reset. -/
def descriptor.close (d : descriptor) (os : OS) : descriptor × OS :=
  if d.fd > standard_filenos.max_standard_fd then
    ({ d with file_path := none }, os.closeFd d.fd)
  else
    (d, os)

/-- Embeds `descriptor::~descriptor()`: `if (file_path_) close();`. -/
def descriptor.destroy (d : descriptor) (os : OS) : OS :=
  if d.file_path.isSome then (d.close os).2 else os

/-- Embeds `descriptor::close_linked()`: `if (linked_fd_) linked_fd_->close();` —
the pointee's `close` removes its fd from the OS table when it is above
`max_standard_fd`. -/
def descriptor.close_linked (d : descriptor) (os : OS) : OS :=
  match d.linked_fd with
  | none => os
  | some cfd =>
      if cfd > standard_filenos.max_standard_fd then os.closeFd cfd else os

def linkErrorMsg : String :=
  "You tried to link a file descriptor that is already linked to another file descriptor!"

/-- Embeds `void link(descriptor& fd1, descriptor& fd2)`.  The C++ body runs
`link_fds(fd1, fd2); link_fds(fd2, fd1);` where `link_fds(a,b)` throws
`usage_error` if `a.linked_fd_` is set and otherwise stores `&b` into it.
The returned pair is the state of the two descriptors when the call
returns or when the exception leaves it — so if only `fd2` was linked,
`fd1` has already been mutated by the first `link_fds` call. -/
def link (fd1 fd2 : descriptor) :
    Option subprocess_error × descriptor × descriptor :=
  if fd1.linked_fd.isSome then
    (some (.usage_error linkErrorMsg), fd1, fd2)
  else
    let fd1' := { fd1 with linked_fd := some fd2.fd }
    if fd2.linked_fd.isSome then
      (some (.usage_error linkErrorMsg), fd1', fd2)
    else
      (none, fd1', { fd2 with linked_fd := some fd1.fd })

/-- Embeds `descriptor::open(file_name, flags)`: wraps `::open`; on success the
result records the path (so its destructor closes it), on syscall failure
throws `os_error`.  Whether the syscall succeeds is environment input
(`sys_ok`); the flags do not affect the descriptor state itself. -/
def descriptor.open_file (file_name : String) (_flags : Int) (os : OS)
    (sys_ok : Bool) : Except subprocess_error (descriptor × OS) :=
  if sys_ok then
    let fd := os.alloc
    .ok ({ fd := fd, file_path := some file_name, linked_fd := none }, os.addFd fd)
  else
    .error (.os_error ("Failed to open file " ++ file_name))

/-- Embeds `descriptor::create_pipe()`: `::pipe` yields two fresh fds, the two
wrapped descriptors are `link`ed (both fresh, so the link cannot throw),
and the pair `[read_fd, write_fd]` is returned. -/
def create_pipe (os : OS) : descriptor × descriptor × OS :=
  let rfd : descriptor := descriptor.wrap os.alloc
  let os1 := os.addFd rfd.fd
  let wfd : descriptor := descriptor.wrap os1.alloc
  let os2 := os1.addFd wfd.fd
  let lk := link rfd wfd
  (lk.2.1, lk.2.2, os2)

/-! ## Process (`class posix_process`) -/

/-- Embeds `class posix_process`: the command string, the three standard-stream
descriptors (defaulted to `subprocess::in() / out() / err()`), and the
pid that is present only after `execute`. -/
structure process where
  cmd_ : String
  stdin_fd : descriptor := inFd
  stdout_fd : descriptor := outFd
  stderr_fd : descriptor := errFd
  pid : Option Int := none
deriving DecidableEq, Repr

/-- Embeds `posix_process(std::string cmd)`. -/
def process.init (cmd : String) : process := { cmd_ := cmd }

/-- The parent-side `close_if_linked` lambda of `posix_process::execute`:
`if (fd.linked()) fd.close();`. -/
def close_if_linked (d : descriptor) (os : OS) : descriptor × OS :=
  if d.linked then d.close os else (d, os)

/-- Embeds `posix_process::execute()`.  `::fork`'s outcome is environment input
(`forkPid`; `none` models a failed fork, which throws `os_error`).  The
child branch (`dup_and_close` of the three fds followed by
`exit(::execvp(...))`) runs in the child's address space; its observable
effect in the parent is only the child's eventual wait status, which the
environment delivers to `wait`.  The parent branch closes each of its three
descriptors that is linked to a pipe and records the pid. -/
def process.execute (p : process) (forkPid : Option Int) (os : OS) :
    Except subprocess_error (process × OS) :=
  match forkPid with
  | none => .error (.os_error "Failed to fork process")
  | some pid =>
      let r1 := close_if_linked p.stdin_fd os
      let r2 := close_if_linked p.stdout_fd r1.2
      let r3 := close_if_linked p.stderr_fd r2.2
      .ok ({ p with
              stdin_fd := r1.1
              stdout_fd := r2.1
              stderr_fd := r3.1
              pid := some pid }, r3.2)

/-- Embeds `posix_process::wait()`: throws `usage_error` when `pid_` is unset,
otherwise calls `::waitpid(*pid_, &waitstatus, 0)` and returns the raw
`waitstatus` the kernel stored (NOT `WEXITSTATUS(waitstatus)`).  The raw
status the kernel reports for this child is environment input. -/
def process.wait (p : process) (rawStatus : Nat) : Except subprocess_error Nat :=
  match p.pid with
  | none => .error (.usage_error "posix_process.wait() called before posix_process.execute()")
  | some _ => .ok rawStatus

/-- The `WEXITSTATUS` macro: `(status & 0xff00) >> 8`. -/
def WEXITSTATUS (status : Nat) : Nat := (status &&& 0xff00) >>> 8

/-! ## Pipeline (`class command`) -/

/-- Embeds `class command`: the process deque plus the two pending capture
bindings `captured_stdout` / `captured_stderr`, each a pair of the pipe's
read-end descriptor and a reference to a caller buffer (modelled as a
buffer id). -/
structure command where
  processes : List process
  captured_stdout : Option (descriptor × Nat) := none
  captured_stderr : Option (descriptor × Nat) := none
deriving DecidableEq, Repr

/-- Embeds `command(std::string cmd)`: a single-process pipeline. -/
def command.init (cmd : String) : command := { processes := [process.init cmd] }

/-- Embeds `processes.back().out() = fd`. -/
def setLastOut : List process → descriptor → List process
  | [], _ => []
  | [p], d => [{ p with stdout_fd := d }]
  | p :: q :: ps, d => p :: setLastOut (q :: ps) d

/-- Embeds `processes.back().err() = fd`. -/
def setLastErr : List process → descriptor → List process
  | [], _ => []
  | [p], d => [{ p with stderr_fd := d }]
  | p :: q :: ps, d => p :: setLastErr (q :: ps) d

/-- Embeds `processes.front().in() = fd`. -/
def setFirstIn : List process → descriptor → List process
  | [], _ => []
  | p :: ps, d => { p with stdin_fd := d } :: ps

/-- Embeds `operator>(command& cmd, descriptor fd)`:
`cmd.captured_stdout.reset(); cmd.processes.back().out() = std::move(fd);`. -/
def op_gt_fd (cmd : command) (fd : descriptor) : command :=
  { cmd with captured_stdout := none, processes := setLastOut cmd.processes fd }

/-- Embeds `operator>=(command& cmd, descriptor fd)`:
`cmd.processes.back().err() = std::move(fd);` — note: no reset of
`captured_stderr`. -/
def op_ge_fd (cmd : command) (fd : descriptor) : command :=
  { cmd with processes := setLastErr cmd.processes fd }

/-- Embeds `operator>>(command& cmd, descriptor fd) { return (cmd > std::move(fd)); }`. -/
def op_gtgt_fd (cmd : command) (fd : descriptor) : command := op_gt_fd cmd fd

/-- Embeds `operator>>=(command& cmd, descriptor fd) { return (cmd >= std::move(fd)); }`. -/
def op_gege_fd (cmd : command) (fd : descriptor) : command := op_ge_fd cmd fd

/-- Embeds `operator<(command& cmd, descriptor fd)`:
`cmd.processes.front().in() = std::move(fd);`. -/
def op_lt_fd (cmd : command) (fd : descriptor) : command :=
  { cmd with processes := setFirstIn cmd.processes fd }

/-- Embeds `operator>(command& cmd, std::string& output)`: create a pipe, run
`cmd > std::move(write_fd)` (which resets any pending stdout capture and
assigns the last process's stdout), then register
`captured_stdout = {read_fd, output}`. -/
def op_gt_str (cmd : command) (buf : Nat) (os : OS) : command × OS :=
  let pp := create_pipe os
  let cmd1 := op_gt_fd cmd pp.2.1
  ({ cmd1 with captured_stdout := some (pp.1, buf) }, pp.2.2)

/-- Embeds `operator>=(command& cmd, std::string& output)`: create a pipe, run
`cmd > std::move(write_fd)` — the source really invokes `operator>`, i.e.
the STDOUT assignment path — then register
`captured_stderr = {read_fd, output}`. -/
def op_ge_str (cmd : command) (buf : Nat) (os : OS) : command × OS :=
  let pp := create_pipe os
  let cmd1 := op_gt_fd cmd pp.2.1
  ({ cmd1 with captured_stderr := some (pp.1, buf) }, pp.2.2)

/-- Kernel-chosen run-time data: the pid `::fork` returns for the i-th
spawn (`none` = fork failure), the raw wait status `::waitpid` reports for
the i-th child, and the bytes `descriptor::read()` drains from a given fd. -/
structure Env where
  fork : Nat → Option Int
  rawStatus : Nat → Nat
  readFd : Int → String

/-- Events observable during `command::run(std::nothrow_t)`, for ordering
properties. -/
inductive Event where
  | exec (i : Nat)
  | drain_stdout
  | drain_stderr
  | wait (i : Nat)
deriving DecidableEq, Repr

/-- The result of a completed `run(std::nothrow_t)`: the returned status,
the final OS state, the event trace, and the (buffer id, data) writes the
capture drains performed. -/
structure RunOut where
  status : Nat
  os : OS
  events : List Event
  writes : List (Nat × String)
deriving DecidableEq, Repr

/-- The spawn loop `for (auto& process : processes) process.execute();`
(`i` is the position of the first process of the remaining list). -/
def executeAll (env : Env) : List process → Nat → OS →
    Except subprocess_error (List process × OS × List Event)
  | [], _, os => .ok ([], os, [])
  | p :: ps, i, os =>
      match p.execute (env.fork i) os with
      | .error e => .error e
      | .ok (p', os') =>
          match executeAll env ps (i + 1) os' with
          | .error e => .error e
          | .ok (ps', os'', evs) => .ok (p' :: ps', os'', Event.exec i :: evs)

/-- The `capture_stream` lambda of `run(std::nothrow_t)`: when the binding
is present, clear-and-assign the bound buffer from `read()` of the pipe's
read end, then `close()` it. -/
def capture_stream (env : Env) (binding : Option (descriptor × Nat))
    (ev : Event) (os : OS) : OS × List Event × List (Nat × String) :=
  match binding with
  | none => (os, [], [])
  | some (d, buf) =>
      let data := env.readFd d.fd
      let os' := (d.close os).2
      (os', [ev], [(buf, data)])

/-- The reap loop `int waitstatus; for (auto& process : processes)
waitstatus = process.wait();` — `acc` is the current value of
`waitstatus` (`none` models the uninitialised variable). -/
def waitAll (env : Env) : List process → Nat → Option Nat →
    Except subprocess_error (Option Nat × List Event)
  | [], _, acc => .ok (acc, [])
  | p :: ps, i, _acc =>
      match p.wait (env.rawStatus i) with
      | .error e => .error e
      | .ok w =>
          match waitAll env ps (i + 1) (some w) with
          | .error e => .error e
          | .ok (res, evs) => .ok (res, Event.wait i :: evs)

/-- Specification helper (not part of the source): the value held by the
`waitstatus` variable after the reap loop, starting from value `acc` at
position `i`. -/
def lastRaw (env : Env) : List process → Nat → Option Nat → Option Nat
  | [], _, acc => acc
  | _ :: ps, i, _ => lastRaw env ps (i + 1) (some (env.rawStatus i))

/-- Embeds `int command::run(std::nothrow_t)`: spawn every process in order, drain
the stdout capture binding then the stderr one, reap every process in
order, and return `WEXITSTATUS(waitstatus)` of the last reap. -/
def command.run_nothrow (c : command) (env : Env) (os : OS) :
    Except subprocess_error RunOut :=
  match executeAll env c.processes 0 os with
  | .error e => .error e
  | .ok (ps, os1, evs1) =>
      let c1 := capture_stream env c.captured_stdout Event.drain_stdout os1
      let c2 := capture_stream env c.captured_stderr Event.drain_stderr c1.1
      match waitAll env ps 0 none with
      | .error e => .error e
      | .ok (wopt, evs4) =>
          .ok ⟨WEXITSTATUS (wopt.getD 0), c2.1,
               evs1 ++ c1.2.1 ++ c2.2.1 ++ evs4, c1.2.2 ++ c2.2.2⟩

/-- Embeds `int command::run()`: run non-throwing; if the status is non-zero,
throw `command_error` carrying it, else return it. -/
def command.run (c : command) (env : Env) (os : OS) :
    Except subprocess_error RunOut :=
  match c.run_nothrow env os with
  | .error e => .error e
  | .ok r =>
      if r.status ≠ 0 then
        .error (.command_error
          ("Command exited with code " ++ toString r.status ++ ".") r.status)
      else
        .ok r

/-- Embeds `command& command::operator|(command&& other)`: create a pipe,
assign its read end as the other pipeline's first stdin and its write end
as this pipeline's last stdout, append the other's processes, and take
over the other's capture bindings. -/
def op_pipe (cmd : command) (other : command) (os : OS) : command × OS :=
  let pp := create_pipe os
  let other1 := { other with processes := setFirstIn other.processes pp.1 }
  let cmd1 := { cmd with processes := setLastOut cmd.processes pp.2.1 }
  ({ processes := cmd1.processes ++ other1.processes
     captured_stdout := other.captured_stdout
     captured_stderr := other.captured_stderr }, pp.2.2)

/-! ## Concrete run-time environments used by witnesses -/

/-- Environment where every fork succeeds and every child exits 0. -/
def demoEnvOk : Env := ⟨fun _ => some 10, fun _ => 0, fun _ => ""⟩

/-- Environment where every fork succeeds and every child's raw wait
status is `1 << 8`, i.e. exit status 1 (what `/bin/false` produces). -/
def demoEnvFalse : Env := ⟨fun _ => some 10, fun _ => 256, fun _ => ""⟩

/-- Environment modelling a nonexistent executable: `::fork` succeeds, the
child's `::execvp` returns `-1`, so the child runs `exit(-1)` and the
kernel reports the raw wait status `255 << 8` (exit status 255). -/
def demoEnvExecFail : Env := ⟨fun _ => some 10, fun _ => 255 * 256, fun _ => ""⟩

/-- Environment for a two-stage pipeline: distinct pids, the stage-`i`
child exits with status `i + 2`. -/
def demoEnvTwo : Env :=
  ⟨fun i => some (100 + Int.ofNat i), fun i => 256 * (i + 2), fun _ => "data"⟩

/-- Two-stage pipeline built with the chaining operator. -/
def demoPiped : command × OS :=
  op_pipe (command.init "ps aux") (command.init "head -n1") OS.init

/-- The two-stage pipeline with a stdout capture binding added. -/
def demoCaptured : command × OS := op_gt_str demoPiped.1 0 demoPiped.2

/-! ## Helper lemmas -/

lemma execute_some_eq (p : process) (pid : Int) (os : OS) :
    p.execute (some pid) os =
      .ok ({ p with
              stdin_fd := (close_if_linked p.stdin_fd os).1
              stdout_fd := (close_if_linked p.stdout_fd
                (close_if_linked p.stdin_fd os).2).1
              stderr_fd := (close_if_linked p.stderr_fd
                (close_if_linked p.stdout_fd (close_if_linked p.stdin_fd os).2).2).1
              pid := some pid },
            (close_if_linked p.stderr_fd
              (close_if_linked p.stdout_fd (close_if_linked p.stdin_fd os).2).2).2) := rfl

lemma execute_some_pid (p : process) (pid : Int) (os : OS) :
    ∃ p' os', p.execute (some pid) os = .ok (p', os') ∧ p'.pid = some pid :=
  ⟨_, _, execute_some_eq p pid os, rfl⟩

lemma executeAll_success (env : Env) :
    ∀ (ps : List process) (i : Nat) (os : OS),
      (∀ j, j < ps.length → (env.fork (i + j)).isSome) →
      ∃ ps' os',
        executeAll env ps i os =
          .ok (ps', os', (List.range' i ps.length).map Event.exec) ∧
        ps'.length = ps.length ∧ ∀ q ∈ ps', q.pid.isSome := by
  intro ps
  induction ps with
  | nil =>
      intro i os _
      exact ⟨[], os, by simp [executeAll], rfl, by simp⟩
  | cons p ps ih =>
      intro i os h
      have h0 : (env.fork i).isSome := by simpa using h 0 (Nat.succ_pos _)
      obtain ⟨pid, hpid⟩ := Option.isSome_iff_exists.mp h0
      obtain ⟨p', os', hexec, hp'⟩ := execute_some_pid p pid os
      obtain ⟨ps', os'', hrec, hlen, hpids⟩ := ih (i + 1) os'
        (fun j hj => by
          have := h (j + 1) (Nat.succ_lt_succ hj)
          simpa [Nat.add_comm, Nat.add_left_comm, Nat.add_assoc] using this)
      refine ⟨p' :: ps', os'', ?_, by simp [hlen], ?_⟩
      · simp only [executeAll]
        rw [hpid, hexec]
        simp [hrec, List.range'_succ]
      · intro q hq
        rcases List.mem_cons.mp hq with rfl | hq
        · simp [hp']
        · exact hpids q hq

lemma waitAll_success (env : Env) :
    ∀ (ps : List process) (i : Nat) (acc : Option Nat),
      (∀ q ∈ ps, q.pid.isSome) →
      waitAll env ps i acc =
        .ok (lastRaw env ps i acc, (List.range' i ps.length).map Event.wait) := by
  intro ps
  induction ps with
  | nil => intro i acc _; simp [waitAll, lastRaw]
  | cons p ps ih =>
      intro i acc h
      obtain ⟨pid, hpid⟩ := Option.isSome_iff_exists.mp (h p (by simp))
      have hih := ih (i + 1) (some (env.rawStatus i))
        (fun q hq => h q (List.mem_cons_of_mem p hq))
      simp [waitAll, process.wait, hpid, hih, lastRaw, List.range'_succ]

lemma lastRaw_of_ne_nil (env : Env) :
    ∀ (ps : List process) (i : Nat) (acc : Option Nat), ps ≠ [] →
      lastRaw env ps i acc = some (env.rawStatus (i + ps.length - 1)) := by
  intro ps
  induction ps with
  | nil => intro i acc h; exact absurd rfl h
  | cons p ps ih =>
      intro i acc _
      by_cases hps : ps = []
      · subst hps; simp [lastRaw]
      · have harg : i + 1 + ps.length - 1 = i + (ps.length + 1) - 1 := by omega
        simp only [lastRaw, List.length_cons]
        rw [ih (i + 1) (some (env.rawStatus i)) hps, harg]

lemma capture_stream_eq (env : Env) (binding : Option (descriptor × Nat))
    (ev : Event) (os : OS) :
    ∃ os' w, capture_stream env binding ev os =
      (os', (if binding.isSome then [ev] else []), w) := by
  cases binding with
  | none => exact ⟨os, [], rfl⟩
  | some pair =>
      cases pair with
      | mk d buf => exact ⟨(d.close os).2, [(buf, env.readFd d.fd)], rfl⟩

lemma run_nothrow_success (c : command) (env : Env) (os : OS)
    (hne : c.processes ≠ [])
    (hf : ∀ i, i < c.processes.length → (env.fork i).isSome) :
    ∃ os' w,
      c.run_nothrow env os = .ok
        ⟨WEXITSTATUS (env.rawStatus (c.processes.length - 1)), os',
         (List.range c.processes.length).map Event.exec
           ++ (if c.captured_stdout.isSome then [Event.drain_stdout] else [])
           ++ (if c.captured_stderr.isSome then [Event.drain_stderr] else [])
           ++ (List.range c.processes.length).map Event.wait,
         w⟩ := by
  obtain ⟨ps', os1, hexec, hlen, hpids⟩ :=
    executeAll_success env c.processes 0 os (fun j hj => by simpa using hf j hj)
  obtain ⟨os2, w2, hcap1⟩ :=
    capture_stream_eq env c.captured_stdout Event.drain_stdout os1
  obtain ⟨os3, w3, hcap2⟩ :=
    capture_stream_eq env c.captured_stderr Event.drain_stderr os2
  have hne' : ps' ≠ [] := by
    intro hnil
    exact hne (List.length_eq_zero.mp (by simp [← hlen, hnil]))
  have hwait := waitAll_success env ps' 0 none hpids
  rw [lastRaw_of_ne_nil env ps' 0 none hne'] at hwait
  refine ⟨os3, w2 ++ w3, ?_⟩
  simp only [command.run_nothrow]
  rw [hexec]
  simp [hcap1, hcap2, hwait, hlen, List.range_eq_range', List.append_assoc]

lemma execute_error_is_os (p : process) (fp : Option Int) (os : OS)
    (e : subprocess_error) (h : p.execute fp os = .error e) :
    e = .os_error "Failed to fork process" := by
  cases fp with
  | none => simp [process.execute] at h; exact h.symm
  | some pid => rw [execute_some_eq] at h; simp at h

lemma wait_error_is_usage (p : process) (raw : Nat) (e : subprocess_error)
    (h : p.wait raw = .error e) :
    e = .usage_error "posix_process.wait() called before posix_process.execute()" := by
  cases hp : p.pid with
  | none => simp [process.wait, hp] at h; exact h.symm
  | some pid => simp [process.wait, hp] at h

lemma executeAll_error_is_os (env : Env) :
    ∀ (ps : List process) (i : Nat) (os : OS) (e : subprocess_error),
      executeAll env ps i os = .error e → e = .os_error "Failed to fork process" := by
  intro ps
  induction ps with
  | nil => intro i os e h; simp [executeAll] at h
  | cons p ps ih =>
      intro i os e h
      simp only [executeAll] at h
      split at h
      · next e1 heq =>
          injection h with h2
          subst h2
          exact execute_error_is_os p _ os _ heq
      · next p' os' heq =>
          split at h
          · next e2 heq2 =>
              injection h with h2
              subst h2
              exact ih _ _ _ heq2
          · next ps' os'' evs heq2 => simp at h

lemma waitAll_error_is_usage (env : Env) :
    ∀ (ps : List process) (i : Nat) (acc : Option Nat) (e : subprocess_error),
      waitAll env ps i acc = .error e →
      e = .usage_error "posix_process.wait() called before posix_process.execute()" := by
  intro ps
  induction ps with
  | nil => intro i acc e h; simp [waitAll] at h
  | cons p ps ih =>
      intro i acc e h
      simp only [waitAll] at h
      split at h
      · next e1 heq =>
          injection h with h2
          subst h2
          exact wait_error_is_usage p _ _ heq
      · next w heq =>
          split at h
          · next e2 heq2 =>
              injection h with h2
              subst h2
              exact ih _ _ _ heq2
          · next res evs heq2 => simp at h

lemma closeFd_idem (os : OS) (v : Int) : (os.closeFd v).closeFd v = os.closeFd v := by
  simp [OS.closeFd, List.filter_filter, Bool.and_self]

lemma mem_closeFd_self (os : OS) (v : Int) : v ∉ (os.closeFd v).openFds := by
  simp [OS.closeFd, List.mem_filter]

lemma run_nothrow_no_command_error (c : command) (env : Env) (os : OS)
    (msg : String) (k : Nat) :
    c.run_nothrow env os ≠ .error (.command_error msg k) := by
  intro h
  simp only [command.run_nothrow] at h
  split at h
  · next e1 heq =>
      injection h with h2
      have := executeAll_error_is_os env c.processes 0 os e1 heq
      rw [this] at h2
      simp at h2
  · next ps os1 evs1 heq =>
      split at h
      · next e2 heq2 =>
          injection h with h2
          have := waitAll_error_is_usage env ps 0 none e2 heq2
          rw [this] at h2
          simp at h2
      · next wopt evs4 heq2 => simp at h

/-! ## Claim theorems -/

/-- C1: the claim says the `>=` buffer-capture form assigns the new pipe's
write end as the last process's STDERR and leaves its stdout unchanged.
Evaluating the embedded `operator>=(command&, std::string&)` on a
one-stage pipeline over a fresh fd table shows what the code actually
does: one pipe is created (read end 3, write end 4) and the stderr
capture binding is registered with the read end, but the write end is
assigned to the last process's STDOUT slot (the implementation calls
`operator>`, which also clears any pending stdout capture), while the
stderr slot keeps the default standard-error descriptor. -/
theorem C1_ge_string_assigns_stdout_not_stderr :
    (op_ge_str (command.init "cat") 0 OS.init).2.openFds = [4, 3, 0, 1, 2] ∧
    (op_ge_str (command.init "cat") 0 OS.init).1.captured_stderr =
      some ({ fd := 3, linked_fd := some 4 }, 0) ∧
    (op_ge_str (command.init "cat") 0 OS.init).1.processes.map process.stdout_fd =
      [{ fd := 4, linked_fd := some 3 }] ∧
    (op_ge_str (command.init "cat") 0 OS.init).1.processes.map process.stderr_fd =
      [errFd] := by decide

/-- C2: on a pipeline whose spawns all succeed, the non-throwing run
returns the final stage's extracted exit status; the throwing run raises
`command_error` carrying exactly that status when it is non-zero and
returns the status (0) otherwise; and the non-throwing run never produces
a `command_error`. -/
theorem C2_run_command_error_iff_nonzero (c : command) (env : Env) (os : OS)
    (hne : c.processes ≠ [])
    (hf : ∀ i, i < c.processes.length → (env.fork i).isSome) :
    (∃ r, c.run_nothrow env os = .ok r ∧
      r.status = WEXITSTATUS (env.rawStatus (c.processes.length - 1)) ∧
      (r.status ≠ 0 → c.run env os =
        .error (.command_error
          ("Command exited with code " ++ toString r.status ++ ".") r.status)) ∧
      (r.status = 0 → c.run env os = .ok r)) ∧
    (∀ msg k, c.run_nothrow env os ≠ .error (.command_error msg k)) := by
  obtain ⟨os', w, hr⟩ := run_nothrow_success c env os hne hf
  refine ⟨⟨_, hr, rfl, ?_, ?_⟩, fun msg k => run_nothrow_no_command_error c env os msg k⟩
  · intro hs
    have hs' : WEXITSTATUS (env.rawStatus (c.processes.length - 1)) ≠ 0 := hs
    simp [command.run, hr, hs']
  · intro hs
    have hs' : WEXITSTATUS (env.rawStatus (c.processes.length - 1)) = 0 := hs
    simp [command.run, hr, hs']

/-- Witness for C2 at a concrete input: a one-stage pipeline whose child
exits 1 (raw status 256). -/
theorem C2_witness :
    (∃ r, (command.init "false").run_nothrow demoEnvFalse OS.init = .ok r ∧
      r.status = WEXITSTATUS (demoEnvFalse.rawStatus
        ((command.init "false").processes.length - 1)) ∧
      (r.status ≠ 0 → (command.init "false").run demoEnvFalse OS.init =
        .error (.command_error
          ("Command exited with code " ++ toString r.status ++ ".") r.status)) ∧
      (r.status = 0 → (command.init "false").run demoEnvFalse OS.init = .ok r)) ∧
    (∀ msg k, (command.init "false").run_nothrow demoEnvFalse OS.init ≠
      .error (.command_error msg k)) :=
  C2_run_command_error_iff_nonzero (command.init "false") demoEnvFalse OS.init
    (by decide) (by decide)

/-- C3: on a pipeline whose spawns all succeed, the run completes, waits
on every process in insertion order (the wait events are exactly
`wait 0, …, wait (n-1)` in that order, as a suffix of the trace), and the
reported status is `WEXITSTATUS` of the raw status of the final wait —
not an aggregate of the stages. -/
theorem C3_run_returns_final_stage_status (c : command) (env : Env) (os : OS)
    (hne : c.processes ≠ [])
    (hf : ∀ i, i < c.processes.length → (env.fork i).isSome) :
    ∃ r, c.run_nothrow env os = .ok r ∧
      r.status = WEXITSTATUS (env.rawStatus (c.processes.length - 1)) ∧
      ∃ pre, r.events = pre ++ (List.range c.processes.length).map Event.wait := by
  obtain ⟨os', w, hr⟩ := run_nothrow_success c env os hne hf
  exact ⟨_, hr, rfl, _, rfl⟩

/-- Witness for C3 at a concrete input: the two-stage demo pipeline, where
the second child exits 3 and the first exits 2. -/
theorem C3_witness :
    ∃ r, demoCaptured.1.run_nothrow demoEnvTwo demoCaptured.2 = .ok r ∧
      r.status = WEXITSTATUS (demoEnvTwo.rawStatus
        (demoCaptured.1.processes.length - 1)) ∧
      ∃ pre, r.events =
        pre ++ (List.range demoCaptured.1.processes.length).map Event.wait :=
  C3_run_returns_final_stage_status demoCaptured.1 demoEnvTwo demoCaptured.2
    (by decide) (by decide)

/-- C4 (amended): `wait()` before `execute()` fails with `usage_error`;
`wait()` after a successful `execute()` returns the RAW wait status the
kernel reported (the exit status is extracted only later, by `run`'s
`WEXITSTATUS`). -/
theorem C4_wait_raw_status (p : process) (raw : Nat) :
    (p.pid = none →
      p.wait raw = .error
        (.usage_error "posix_process.wait() called before posix_process.execute()")) ∧
    (∀ pid os p' os', p.execute (some pid) os = .ok (p', os') →
      p'.wait raw = .ok raw) := by
  constructor
  · intro h; simp [process.wait, h]
  · intro pid os p' os' h
    rw [execute_some_eq] at h
    injection h with h2
    rw [Prod.mk.injEq] at h2
    obtain ⟨hp', _⟩ := h2
    rw [← hp']
    simp [process.wait]

/-- Witness for C4 at concrete inputs: an unspawned process and a spawned
one with raw wait status 256. -/
theorem C4_witness :
    (process.init "false").wait 256 =
      .error (.usage_error "posix_process.wait() called before posix_process.execute()") ∧
    process.wait { cmd_ := "false", pid := some 7 } 256 = .ok 256 := by
  constructor
  · exact (C4_wait_raw_status (process.init "false") 256).1 rfl
  · exact (C4_wait_raw_status (process.init "false") 256).2 7 OS.init
      { cmd_ := "false", pid := some 7 } OS.init rfl

/-- Counterexample to C4 as stated: a child that exits with status 1 has
raw wait status 256; `wait()` after `execute()` returns 256, which is the
raw signal-encoding wait status, not the child's exit status 1. -/
theorem C4_counterexample :
    (process.init "false").execute (some 7) OS.init =
      .ok ({ cmd_ := "false", pid := some 7 }, OS.init) ∧
    process.wait { cmd_ := "false", pid := some 7 } 256 = .ok 256 ∧
    WEXITSTATUS 256 = 1 ∧ (256 : Nat) ≠ 1 := by decide

/-- C5 (amended): `link(a, b)` raises `usage_error` whenever either side
is already linked.  When `a` is already linked, nothing is mutated; but
when only `b` is already linked, `a`'s link pointer has already been set
to `b` by the time the error is raised.  When neither is linked, each
becomes the other's counterpart. -/
theorem C5_link_cases (a b : descriptor) :
    (a.linked_fd.isSome →
      link a b = (some (.usage_error linkErrorMsg), a, b)) ∧
    (a.linked_fd = none → b.linked_fd.isSome →
      link a b = (some (.usage_error linkErrorMsg),
        { a with linked_fd := some b.fd }, b)) ∧
    (a.linked_fd = none → b.linked_fd = none →
      link a b = (none, { a with linked_fd := some b.fd },
        { b with linked_fd := some a.fd })) := by
  refine ⟨?_, ?_, ?_⟩
  · intro h; simp [link, h]
  · intro ha hb; simp [link, ha, hb]
  · intro ha hb; simp [link, ha, hb]

/-- Witness for C5 at concrete inputs, one per case. -/
theorem C5_witness :
    link { fd := 5, linked_fd := some 1 } (descriptor.wrap 6) =
      (some (.usage_error linkErrorMsg), { fd := 5, linked_fd := some 1 },
        descriptor.wrap 6) ∧
    link (descriptor.wrap 5) { fd := 6, linked_fd := some 9 } =
      (some (.usage_error linkErrorMsg), { fd := 5, linked_fd := some 6 },
        { fd := 6, linked_fd := some 9 }) ∧
    link (descriptor.wrap 5) (descriptor.wrap 6) =
      (none, { fd := 5, linked_fd := some 6 }, { fd := 6, linked_fd := some 5 }) :=
  ⟨(C5_link_cases _ _).1 rfl, (C5_link_cases _ _).2.1 rfl rfl,
    (C5_link_cases _ _).2.2 rfl rfl⟩

/-- Counterexample to C5 as stated: linking a fresh descriptor (fd 5) to
an already-linked one (fd 6) raises the usage error, but the first
descriptor's link state HAS been mutated (it now records fd 6). -/
theorem C5_counterexample :
    (link (descriptor.wrap 5) { fd := 6, linked_fd := some 9 }).1 =
      some (.usage_error linkErrorMsg) ∧
    (link (descriptor.wrap 5) { fd := 6, linked_fd := some 9 }).2.1 ≠
      descriptor.wrap 5 := by decide

/-- C6 (amended): `close()` is idempotent, and it never touches a
descriptor whose fd is at most `max_standard_fd` (= 3) — the three
standard streams and, because of the strict comparison, also fd 3 — while
for fds above 3 it closes the OS handle and clears the ownership marker. -/
theorem C6_close_idempotent_boundary (d : descriptor) (os : OS) :
    ((d.close os).1.close (d.close os).2 = d.close os) ∧
    (d.fd ≤ standard_filenos.max_standard_fd → d.close os = (d, os)) ∧
    (d.fd > standard_filenos.max_standard_fd →
      (d.close os).1.file_path = none ∧
      d.fd ∉ (d.close os).2.openFds) := by
  refine ⟨?_, ?_, ?_⟩
  · by_cases h : d.fd > standard_filenos.max_standard_fd
    · simp [descriptor.close, h, closeFd_idem]
    · simp [descriptor.close, h]
  · intro hle
    have h : ¬ d.fd > standard_filenos.max_standard_fd := not_lt.mpr hle
    simp [descriptor.close, h]
  · intro h
    exact ⟨by simp [descriptor.close, h],
      by simp [descriptor.close, h, mem_closeFd_self]⟩

/-- Witness for C6 at concrete inputs: the stderr handle is untouched, and
a file-backed descriptor on fd 5 is closed and invalidated. -/
theorem C6_witness :
    errFd.close OS.init = (errFd, OS.init) ∧
    (({ fd := 5, file_path := some "tmp" } : descriptor).close ⟨[5, 0, 1, 2]⟩).1.file_path
      = none ∧
    (5 : Int) ∉
      (({ fd := 5, file_path := some "tmp" } : descriptor).close ⟨[5, 0, 1, 2]⟩).2.openFds := by
  refine ⟨(C6_close_idempotent_boundary errFd OS.init).2.1 (by decide), ?_, ?_⟩
  · exact ((C6_close_idempotent_boundary _ _).2.2 (by decide)).1
  · exact ((C6_close_idempotent_boundary _ _).2.2 (by decide)).2

/-- Counterexample to C6 as stated: fd 3 is not one of the three standard
streams, is open, yet `close()` neither closes nor invalidates it. -/
theorem C6_counterexample :
    (3 : Int) ≠ inFd.fd ∧ (3 : Int) ≠ outFd.fd ∧ (3 : Int) ≠ errFd.fd ∧
    (3 : Int) ∈ (OS.init.addFd 3).openFds ∧
    (descriptor.wrap 3).close (OS.init.addFd 3) =
      (descriptor.wrap 3, OS.init.addFd 3) ∧
    (3 : Int) ∈ ((descriptor.wrap 3).close (OS.init.addFd 3)).2.openFds := by decide

/-- C7: for a command naming a nonexistent executable the spawn itself
succeeds; the child's `::execvp` fails and the child exits with status
255, so the throwing `run()` raises `command_error` (return code 255) —
NOT `os_error` — and the non-throwing variant returns 255 without raising
anything.  This contradicts the claim (and the repository's own test,
which expects `os_error`). -/
theorem C7_nonexistent_executable_raises_command_error :
    (command.init "random-unavailable-cmd").run demoEnvExecFail OS.init =
      .error (.command_error "Command exited with code 255." 255) ∧
    (command.init "random-unavailable-cmd").run_nothrow demoEnvExecFail OS.init =
      .ok ⟨255, OS.init, [Event.exec 0, Event.wait 0], []⟩ := by decide

/-- C8 (amended): setting a new stdout redirection clears any pending
stdout capture binding (latest redirection wins), but setting a new
stderr redirection leaves a pending stderr capture binding in place —
`operator>=` has no reset of `captured_stderr`. -/
theorem C8_stdout_clears_stderr_does_not (c : command) (fd fd' : descriptor) :
    (op_gt_fd c fd).captured_stdout = none ∧
    (op_ge_fd c fd').captured_stderr = c.captured_stderr :=
  ⟨rfl, rfl⟩

/-- Counterexample to C8 as stated: after registering a stderr capture
binding, redirecting stderr to a plain descriptor does NOT clear the
pending stderr capture binding. -/
theorem C8_counterexample :
    (op_ge_fd (op_ge_str (command.init "cat") 0 OS.init).1
        (descriptor.wrap 7)).captured_stderr =
      some ({ fd := 3, linked_fd := some 4 }, 0) ∧
    (op_ge_fd (op_ge_str (command.init "cat") 0 OS.init).1
        (descriptor.wrap 7)).captured_stderr ≠ none := by decide

/-- C9: on a pipeline whose spawns all succeed, the run trace is exactly
the spawn events in insertion order, then the stdout drain (when a stdout
binding is pending), then the stderr drain (when a stderr binding is
pending), then the wait events in insertion order — so every spawn
precedes every drain, and all draining completes before any reaping. -/
theorem C9_run_event_order (c : command) (env : Env) (os : OS)
    (hne : c.processes ≠ [])
    (hf : ∀ i, i < c.processes.length → (env.fork i).isSome) :
    ∃ r, c.run_nothrow env os = .ok r ∧
      r.events =
        (List.range c.processes.length).map Event.exec
          ++ (if c.captured_stdout.isSome then [Event.drain_stdout] else [])
          ++ (if c.captured_stderr.isSome then [Event.drain_stderr] else [])
          ++ (List.range c.processes.length).map Event.wait := by
  obtain ⟨os', w, hr⟩ := run_nothrow_success c env os hne hf
  exact ⟨_, hr, rfl⟩

/-- Witness for C9 at a concrete input: the captured two-stage demo
pipeline. -/
theorem C9_witness :
    ∃ r, demoCaptured.1.run_nothrow demoEnvTwo demoCaptured.2 = .ok r ∧
      r.events =
        (List.range demoCaptured.1.processes.length).map Event.exec
          ++ (if demoCaptured.1.captured_stdout.isSome then [Event.drain_stdout] else [])
          ++ (if demoCaptured.1.captured_stderr.isSome then [Event.drain_stderr] else [])
          ++ (List.range demoCaptured.1.processes.length).map Event.wait :=
  C9_run_event_order demoCaptured.1 demoEnvTwo demoCaptured.2 (by decide) (by decide)

/-- C10: the destructor closes the OS handle only when the descriptor
records a backing file path: for a path-less descriptor it leaves the OS
state untouched; both ends of `create_pipe` and every wrapped handle
(including the standard streams) are path-less; a successful
`descriptor::open` records the path; and a path-backed descriptor's
destructor performs exactly a `close()`. -/
theorem C10_destroy_only_file_backed (d : descriptor) (os : OS) :
    (d.file_path = none → d.destroy os = os) ∧
    (d.file_path.isSome → d.destroy os = (d.close os).2) ∧
    ((create_pipe os).1.file_path = none ∧ (create_pipe os).2.1.file_path = none) ∧
    (∀ fd, (descriptor.wrap fd).file_path = none) ∧
    (inFd.file_path = none ∧ outFd.file_path = none ∧ errFd.file_path = none) ∧
    (∀ name flags sys_ok dd os',
      descriptor.open_file name flags os sys_ok = .ok (dd, os') →
      dd.file_path = some name) := by
  refine ⟨?_, ?_, ⟨rfl, rfl⟩, fun fd => rfl, ⟨rfl, rfl, rfl⟩, ?_⟩
  · intro h; simp [descriptor.destroy, h]
  · intro h; simp [descriptor.destroy, h]
  · intro name flags sys_ok dd os' h
    cases sys_ok with
    | false => simp [descriptor.open_file] at h
    | true =>
        simp only [descriptor.open_file, if_pos] at h
        injection h with h2
        rw [Prod.mk.injEq] at h2
        rw [← h2.1]

/-- Witness for C10 at concrete inputs: a wrapped pipe-style fd survives
destruction, a file-backed fd 5 is closed by destruction, and a
successful open records its path. -/
theorem C10_witness :
    (descriptor.wrap 42).destroy OS.init = OS.init ∧
    ({ fd := 5, file_path := some "log" } : descriptor).destroy ⟨[5, 0, 1, 2]⟩ =
      (({ fd := 5, file_path := some "log" } : descriptor).close ⟨[5, 0, 1, 2]⟩).2 ∧
    (⟨3, some "log", none⟩ : descriptor).file_path = some "log" := by
  refine ⟨(C10_destroy_only_file_backed (descriptor.wrap 42) OS.init).1 rfl,
    (C10_destroy_only_file_backed _ _).2.1 rfl, ?_⟩
  exact (C10_destroy_only_file_backed (descriptor.wrap 0) OS.init).2.2.2.2.2
    "log" 577 true ⟨3, some "log", none⟩ (OS.init.addFd 3) (by decide)

end Subprocess
